import Mathlib

/-!
Shallow embedding of the device-communication client in
src/project/utilities/virtual_com_port.py (class VirtualCOMPort).

Modelling conventions:
* Python byte strings are modelled as List Nat, one element per byte.
* The hex command strings such as "dd03070000" are modelled by the byte
  sequences they denote, because the code only ever consumes them two hex
  digits at a time (checksum, bytearray.fromhex).
* Python int.to_bytes raises OverflowError when the integer does not fit the
  requested width, so the fixed-width serializers return Option (List Nat);
  none models the raised OverflowError.
* Raised exceptions that reach the caller are modelled with Except PyExn.
-/

set_option maxRecDepth 4000

namespace VCP

/-- Python exceptions that the embedded code can raise to its caller. -/
inductive PyExn where
  | overflowError
  | indexError
  | structError
  deriving DecidableEq

/-- The running sum computed by VirtualCOMPort.checksum (lines 87-89):
    for byte in range(0, len(cmd), 2): checksum += int(cmd[byte : byte + 2], 16)
    taken over the byte list denoted by the hex string cmd.
    Python integers are unbounded, so the sum is an unreduced Nat. -/
def byteSum (p : List Nat) : Nat :=
  p.foldl (fun acc b => acc + b) 0

/-- Python n.to_bytes(2, "little") (line 91): two little-endian bytes, or none
    for the OverflowError raised when n does not fit in 16 bits. -/
def toBytes2LE (n : Nat) : Option (List Nat) :=
  if n < 65536 then some [n % 256, n / 256 % 256] else none

/-- Python n.to_bytes(4, "little") (lines 178 and 234): four little-endian
    bytes, or none for the OverflowError raised when n does not fit in 32 bits. -/
def toBytes4LE (n : Nat) : Option (List Nat) :=
  if n < 4294967296 then
    some [n % 256, n / 256 % 256, n / 65536 % 256, n / 16777216 % 256]
  else none

/-- Python int.from_bytes(b, "little") (lines 194-202 and 227). -/
def intFromBytesLE (b : List Nat) : Nat :=
  b.foldr (fun byte acc => byte + 256 * acc) 0

/-- VirtualCOMPort.checksum (lines 77-91): sums every byte of the command and
    serializes the sum as 2 little-endian bytes.  none models the OverflowError
    raised by int.to_bytes(2, "little") when the sum is 65536 or more; the code
    performs no modular reduction of its own. -/
def checksum (cmd : List Nat) : Option (List Nat) :=
  toBytes2LE (byteSum cmd)

/-- The frame assembled by VirtualCOMPort.transmit line 109:
    command = cmd + self.checksum(cmd): the payload followed by the two
    checksum bytes.  none when checksum raises OverflowError. -/
def encode (cmd : List Nat) : Option (List Nat) :=
  (checksum cmd).map (fun c => cmd ++ c)

/-- Observable actions of the client on the transaction lock, the transport
    and the clock.  The serial transport's behavior is modelled per call: for
    port.write an Option Nat (none models a raised OSError, some n the
    returned count), for port.read an Option (List Nat) (none models a raised
    OSError, some rsp the bytes the device delivered).  wait_for_bytes
    (lines 121-139) busy-waits until the bytes are available and its body
    cannot raise, so the model assumes the wait ends and folds it into the
    read. -/
inductive Event where
  | lockAcquire
  | lockRelease
  | portWrite (frame : List Nat)
  | portRead (n : Nat)
  | serialOpenAttempt (attempt : Nat)
  | sleepOneSecond
  deriving DecidableEq

/-- VirtualCOMPort.transmit (lines 93-119).  If the port is not open it
    returns -1 at once (line 105), before the with-_TaskLock block: no event.
    Otherwise, under the lock, it builds cmd + checksum(cmd) (an OverflowError
    from checksum propagates, the lock being released on exit), writes the
    frame (OSError is caught and gives -1), and returns the count written when
    positive, -1 otherwise. -/
def transmit (isOpen : Bool) (writeResult : Option Nat) (cmd : List Nat) :
    Except PyExn Int × List Event :=
  if !isOpen then (.ok (-1), [])
  else
    match encode cmd with
    | none => (.error .overflowError, [.lockAcquire, .lockRelease])
    | some frame =>
      match writeResult with
      | none => (.ok (-1), [.lockAcquire, .portWrite frame, .lockRelease])
      | some n =>
        if 0 < n then (.ok (n : Int), [.lockAcquire, .portWrite frame, .lockRelease])
        else (.ok (-1), [.lockAcquire, .portWrite frame, .lockRelease])

/-- VirtualCOMPort.receive (lines 141-165).  If the port is not open it
    returns the empty byte string at once (line 153), before the
    with-_TaskLock block: no event.  Otherwise, under the lock, it waits for
    size bytes and reads them; an OSError gives the empty byte string. -/
def receive (isOpen : Bool) (readResult : Option (List Nat)) (size : Nat) :
    List Nat × List Event :=
  if !isOpen then ([], [])
  else
    match readResult with
    | none => ([], [.lockAcquire, .portRead size, .lockRelease])
    | some rsp => (rsp, [.lockAcquire, .portRead size, .lockRelease])

/-- Python b[i] on a byte string: the byte, or IndexError when i is out of
    range. -/
def pyIndex (b : List Nat) (i : Nat) : Except PyExn Nat :=
  if h : i < b.length then .ok (b.get ⟨i, h⟩) else .error .indexError

/-- Python slice b[i:j] on a byte string (clamping, never raising). -/
def pySlice (b : List Nat) (i j : Nat) : List Nat :=
  (b.drop i).take (j - i)

/-- Response handling of VirtualCOMPort.format_sd_card line 245:
    bool(self.receive(7)[4]).  The subscript raises IndexError whenever the
    response has fewer than 5 bytes — in particular on the empty-sequence
    failure sentinel receive returns. -/
def format_sd_card_result (rsp : List Nat) : Except PyExn Bool :=
  (pyIndex rsp 4).map (fun v => v != 0)

/-- Response handling of VirtualCOMPort.set_logging_state line 258, identical
    to format_sd_card's: bool(self.receive(7)[4]). -/
def set_logging_state_result (rsp : List Nat) : Except PyExn Bool :=
  (pyIndex rsp 4).map (fun v => v != 0)

/-- The command dd060700 followed by int(state) rendered as two digits
    (line 257): its bytes. -/
def set_logging_state_cmd (state : Bool) : List Nat :=
  [0xdd, 0x06, 0x07, 0x00, if state then 1 else 0]

/-- Sequencing of a step that may raise with the rest of the operation,
    accumulating the event trace: a raised exception aborts the remainder,
    keeping the events emitted so far (Python control flow). -/
def andThen {α β : Type} (a : Except PyExn α × List Event)
    (f : α → Except PyExn β × List Event) : Except PyExn β × List Event :=
  match a with
  | (.error e, tr) => (.error e, tr)
  | (.ok x, tr) => ((f x).1, tr ++ (f x).2)

/-- Response handling of VirtualCOMPort.get_system_config (lines 190-203): the
    empty failure sentinel gives [], otherwise the nine little-endian u32
    fields read from the byte slices [4:8], [8:12], ..., [36:40]. -/
def get_system_config_result (rsp : List Nat) : List Nat :=
  if rsp = [] then []
  else
    [intFromBytesLE (pySlice rsp 4 8),
     intFromBytesLE (pySlice rsp 8 12),
     intFromBytesLE (pySlice rsp 12 16),
     intFromBytesLE (pySlice rsp 16 20),
     intFromBytesLE (pySlice rsp 20 24),
     intFromBytesLE (pySlice rsp 24 28),
     intFromBytesLE (pySlice rsp 28 32),
     intFromBytesLE (pySlice rsp 32 36),
     intFromBytesLE (pySlice rsp 36 40)]

/-- VirtualCOMPort.get_system_config (lines 182-203): transmit the command
    "dd03070000", receive a 42-byte response, decode it. -/
def get_system_config (isOpen : Bool) (writeResult : Option Nat)
    (readResult : Option (List Nat)) : Except PyExn (List Nat) × List Event :=
  andThen (transmit isOpen writeResult [0xdd, 0x03, 0x07, 0x00, 0x00]) (fun _ =>
    let rc := receive isOpen readResult 42
    (.ok (get_system_config_result rc.1), rc.2))

/-- A Python float as produced by struct.unpack("f", b): represented by the
    32-bit pattern the four bytes denote little-endian (the "f" format uses
    native byte order; the host is little-endian, matching the protocol). -/
structure PyF32 where
  bits : Nat
  deriving DecidableEq

/-- Python struct.unpack("f", b) (lines 272-281): returns a ONE-ELEMENT TUPLE
    (modelled as a one-element list) holding the float decoded from the four
    bytes; raises struct.error when b is not exactly 4 bytes long. -/
def struct_unpack_f (b : List Nat) : Except PyExn (List PyF32) :=
  if b.length = 4 then .ok [⟨intFromBytesLE b⟩] else .error .structError

/-- Response handling of VirtualCOMPort.request_data (lines 268-282): the
    empty failure sentinel gives [], otherwise the list whose elements are the
    values of struct.unpack("f", ...) on the byte slices [4:8], ..., [40:44] —
    each a one-element tuple, since the code never subscripts the unpacked
    tuple. -/
def request_data_result (rsp : List Nat) : Except PyExn (List (List PyF32)) :=
  if rsp = [] then .ok []
  else do
    let t0 ← struct_unpack_f (pySlice rsp 4 8)
    let t1 ← struct_unpack_f (pySlice rsp 8 12)
    let t2 ← struct_unpack_f (pySlice rsp 12 16)
    let t3 ← struct_unpack_f (pySlice rsp 16 20)
    let t4 ← struct_unpack_f (pySlice rsp 20 24)
    let t5 ← struct_unpack_f (pySlice rsp 24 28)
    let t6 ← struct_unpack_f (pySlice rsp 28 32)
    let t7 ← struct_unpack_f (pySlice rsp 32 36)
    let t8 ← struct_unpack_f (pySlice rsp 36 40)
    let t9 ← struct_unpack_f (pySlice rsp 40 44)
    return [t0, t1, t2, t3, t4, t5, t6, t7, t8, t9]

/-- VirtualCOMPort.request_data (lines 260-282): transmit "dd070600", receive
    a 46-byte response, decode it. -/
def request_data (isOpen : Bool) (writeResult : Option Nat)
    (readResult : Option (List Nat)) : Except PyExn (List (List PyF32)) × List Event :=
  andThen (transmit isOpen writeResult [0xdd, 0x07, 0x06, 0x00]) (fun _ =>
    let rc := receive isOpen readResult 46
    (request_data_result rc.1, rc.2))

/-- A Python return value of a function annotated -> bool: either an actual
    bool, or None when control falls off the end of the function body. -/
inductive PyRet where
  | none
  | bool (b : Bool)
  deriving DecidableEq

/-- The retry loop of VirtualCOMPort.open_port (lines 37-48):
    while not self.open and attempt <= 10, try to construct the serial handle;
    on success set self.open = True; on OSError increment attempt and sleep
    one second.  The outcome function models the constructor: outcome k is
    true when the k-th serial.Serial call yields an open handle, false when it
    raises OSError (with pyserial a constructed port is open, so the
    no-exception-but-not-open case does not occur).  Returns the final
    self.open flag and the event trace. -/
def open_port_loop (outcome : Nat → Bool) (opn : Bool) (attempt : Nat) :
    Bool × List Event :=
  if h : ¬ opn ∧ attempt ≤ 10 then
    if outcome attempt then (true, [.serialOpenAttempt attempt])
    else
      let rest := open_port_loop outcome false (attempt + 1)
      (rest.1, .serialOpenAttempt attempt :: .sleepOneSecond :: rest.2)
  else (opn, [])
termination_by 11 - attempt
decreasing_by simp_wf; omega

/-- VirtualCOMPort.open_port (lines 26-48): runs the retry loop starting at
    attempt = 1 and then falls off the end of the function — despite the
    declared return type bool, every path returns None. -/
def open_port (outcome : Nat → Bool) (opn : Bool) : PyRet × Bool × List Event :=
  let r := open_port_loop outcome opn 1
  (PyRet.none, r.1, r.2)

/-- Python truthiness test `not self.portname` of line 67: true for None and
    for the empty string. -/
def pyFalsy (portname : Option String) : Bool :=
  match portname with
  | Option.none => true
  | some s => s.isEmpty

/-- VirtualCOMPort.connect (lines 57-75): True when already open, False when
    the port name is falsy (None or empty), otherwise the value of open_port
    (which is always None).  The KeyboardInterrupt handler is outside the
    model: no interrupt is delivered. -/
def connect (outcome : Nat → Bool) (opn : Bool) (portname : Option String) :
    PyRet × Bool × List Event :=
  if opn then (PyRet.bool true, opn, [])
  else if pyFalsy portname then (PyRet.bool false, opn, [])
  else open_port outcome opn

/-- A sample nonempty port name for concrete runs. -/
def nameCOM3 : String :=
  "COM3"

/-- The command "dd040b0001" + epoch.to_bytes(4, "little").hex() of line 234;
    none models the OverflowError when the epoch does not fit in 32 bits. -/
def set_epoch_time_cmd (epoch : Nat) : Option (List Nat) :=
  (toBytes4LE epoch).map (fun eb => [0xdd, 0x04, 0x0b, 0x00, 0x01] ++ eb)

/-- VirtualCOMPort.set_epoch_time (lines 230-235): build the set command for
    the current epoch (taken here as a parameter in place of
    datetime.datetime.now()), transmit it, consume the 10-byte
    acknowledgement, return None. -/
def set_epoch_time (isOpen : Bool) (epoch : Nat) (writeResult : Option Nat)
    (readResult : Option (List Nat)) : Except PyExn Unit × List Event :=
  match set_epoch_time_cmd epoch with
  | Option.none => (.error .overflowError, [])
  | some cmd =>
    andThen (transmit isOpen writeResult cmd) (fun _ =>
      let rc := receive isOpen readResult 10
      (.ok (), rc.2))

/-- VirtualCOMPort.get_config_hex_string (lines 167-180): the concatenation of
    the 4-byte little-endian serializations of the values, left to right; none
    models the OverflowError raised at the first value not fitting 32 bits. -/
def get_config_hex_string (values : List Nat) : Option (List Nat) :=
  match values with
  | [] => some []
  | v :: vs => do
    let b ← toBytes4LE v
    let rest ← get_config_hex_string vs
    pure (b ++ rest)

/-- VirtualCOMPort.set_system_config (lines 205-214): the complete
    set_epoch_time exchange first, then transmit "dd032b0001" + the serialized
    values and consume the 42-byte acknowledgement. -/
def set_system_config (isOpen : Bool) (epoch : Nat) (values : List Nat)
    (w1 w2 : Option Nat) (r1 r2 : Option (List Nat)) :
    Except PyExn Unit × List Event :=
  andThen (set_epoch_time isOpen epoch w1 r1) (fun _ =>
    match get_config_hex_string values with
    | Option.none => (.error .overflowError, [])
    | some cfg =>
      andThen (transmit isOpen w2 ([0xdd, 0x03, 0x2b, 0x00, 0x01] ++ cfg)) (fun _ =>
        let rc := receive isOpen r2 42
        (.ok (), rc.2)))

/-- One critical section on the class-level threading.Lock _TaskLock
    (line 18): a whole transmit's frame write (the lock is acquired at
    line 107) or a whole receive's read (acquired at line 155).  Mutual
    exclusion makes each single call atomic, so whole calls are the unit any
    wire order of two concurrent callers is interleaved from; the lock is NOT
    held across a caller's transmit and its matching receive. -/
inductive LockedCall where
  | txCall (frame : List Nat)
  | rxCall (n : Nat)
  deriving DecidableEq

/-- The locked calls one command operation issues for its request/response
    exchange: a transmit of its frame, then a receive of the expected
    response length — two separate lock acquisitions (e.g. get_system_config
    lines 189-190, format_sd_card lines 244-245). -/
def transaction (frame : List Nat) (rspLen : Nat) : List LockedCall :=
  [.txCall frame, .rxCall rspLen]

/-- The calls a wire schedule attributes to the caller tid, in order. -/
def callsOf (tid : Bool) (s : List (Bool × LockedCall)) : List LockedCall :=
  (s.filter (fun e => e.1 == tid)).map Prod.snd

/-- s is a possible wire order of the locked calls of two concurrent callers
    running call sequences pa and pb: each caller's calls appear in its
    program order, with whole calls as the unit of interleaving (which is
    exactly what the per-call lock guarantees). -/
def ValidSchedule (pa pb : List LockedCall) (s : List (Bool × LockedCall)) : Prop :=
  callsOf true s = pa ∧ callsOf false s = pb

/-- The schedule in which caller tid performs the block p without any
    interleaving from the other caller. -/
def tagged (tid : Bool) (p : List LockedCall) : List (Bool × LockedCall) :=
  p.map (fun c => (tid, c))

theorem checksum_of_lt (p : List Nat) (h : byteSum p < 65536) :
    checksum p = some [byteSum p % 256, byteSum p / 256 % 256] := by
  simp [checksum, toBytes2LE, h]

theorem intFromBytesLE_pair (a b : Nat) : intFromBytesLE [a, b] = a + 256 * b := rfl

/-- C1 (amended): for every byte sequence p whose byte sum is below 65536 —
    which holds for every frame this client ever builds — checksum(p) is the
    two-byte little-endian serialization of the byte sum, which equals the sum
    reduced modulo 65536 and fits in 16 bits.  (The unamended claim fails for
    larger sums: int.to_bytes(2, "little") raises OverflowError instead of
    wrapping, see the counterexample.) -/
theorem checksum_is_sum_mod_65536 (p : List Nat) (h : byteSum p < 65536) :
    ∃ b, checksum p = some b ∧ b.length = 2 ∧
      intFromBytesLE b = byteSum p % 65536 ∧ intFromBytesLE b < 65536 := by
  refine ⟨[byteSum p % 256, byteSum p / 256 % 256], checksum_of_lt p h, rfl, ?_, ?_⟩ <;>
    rw [intFromBytesLE_pair] <;> omega

/-- C1 witness: the claim's concrete instances.  checksum([]) is the zero
    checksum and checksum([0xdd, 0x03]) = 0x00e0, serialized little-endian as
    the bytes e0 00. -/
theorem checksum_is_sum_mod_65536_witness :
    (byteSum [0xdd, 0x03] < 65536 ∧
      ∃ b, checksum [0xdd, 0x03] = some b ∧ b.length = 2 ∧
        intFromBytesLE b = byteSum [0xdd, 0x03] % 65536 ∧ intFromBytesLE b < 65536) ∧
    checksum [0xdd, 0x03] = some [0xe0, 0x00] ∧
    checksum [] = some [0x00, 0x00] :=
  ⟨⟨by decide, checksum_is_sum_mod_65536 [0xdd, 0x03] (by decide)⟩, by decide, by decide⟩

/-- C1 counterexample: a 258-byte payload of 0xff bytes has byte sum 65790, and
    checksum raises OverflowError (modelled as none) instead of returning
    65790 mod 65536 = 254: the claim's universally quantified
    "reduced modulo 65536 ... without any overflow error" is false on the code. -/
theorem checksum_overflow_counterexample :
    checksum (List.replicate 258 0xff) = none := by decide

/-- C6 (amended): for every payload p whose byte sum is below 65536 — true of
    every frame this client builds — the encoded frame is p followed by the
    2-byte little-endian checksum: its length is len(p) + 2, its first len(p)
    bytes are p, and its last two bytes decode little-endian to
    checksum(p) = byteSum(p) mod 65536.  (The unamended universally quantified
    claim fails when the byte sum reaches 65536: no frame is produced because
    checksum raises OverflowError, see the counterexample.) -/
theorem encode_appends_checksum (p : List Nat) (h : byteSum p < 65536) :
    ∃ f, encode p = some f ∧ f.length = p.length + 2 ∧
      f.take p.length = p ∧
      intFromBytesLE (f.drop p.length) = byteSum p % 65536 := by
  refine ⟨p ++ [byteSum p % 256, byteSum p / 256 % 256], ?_, by simp, ?_, ?_⟩
  · simp [encode, checksum_of_lt p h]
  · exact List.take_left p _
  · rw [List.drop_left, intFromBytesLE_pair]; omega

/-- C6 witness: the frame for the payload [0xdd, 0x03] exists, has length 4,
    starts with the payload and ends with its checksum. -/
theorem encode_appends_checksum_witness :
    byteSum [0xdd, 0x03] < 65536 ∧
      ∃ f, encode [0xdd, 0x03] = some f ∧ f.length = [0xdd, 0x03].length + 2 ∧
        f.take [0xdd, 0x03].length = [0xdd, 0x03] ∧
        intFromBytesLE (f.drop [0xdd, 0x03].length) = byteSum [0xdd, 0x03] % 65536 :=
  ⟨by decide, encode_appends_checksum [0xdd, 0x03] (by decide)⟩

/-- C6 counterexample: for a 300-byte payload of 0xff bytes no frame is
    produced at all (checksum raises OverflowError, modelled as none), so the
    claim "for every payload p, the encoded frame equals p followed by
    checksum(p)" is false on the code. -/
theorem encode_overflow_counterexample :
    encode (List.replicate 300 0xff) = none := by decide

/-- C7: with the link not open, transmit returns -1 and receive returns the
    empty byte sequence, each with an empty event trace: the transaction lock
    is never acquired and the transport is neither written nor read. -/
theorem closed_link_fails_without_lock_or_transport (writeResult : Option Nat)
    (readResult : Option (List Nat)) (cmd : List Nat) (size : Nat) :
    transmit false writeResult cmd = (.ok (-1), []) ∧
    receive false readResult size = ([], []) :=
  ⟨rfl, rfl⟩

/-- C3 is refuted: when receive fails it returns the empty byte sequence
    (here: an OSError on a receive over an open link), and format_sd_card and
    set_logging_state then evaluate response[4] on that empty sequence, which
    raises IndexError instead of returning a failure sentinel: the exception
    propagates to the caller, and the short response was (partially) decoded
    by indexing it. -/
theorem empty_response_raises_index_error :
    receive true none 7 = ([], [.lockAcquire, .portRead 7, .lockRelease]) ∧
    format_sd_card_result [] = .error .indexError ∧
    set_logging_state_result [] = .error .indexError :=
  ⟨rfl, rfl, rfl⟩

/-- C5: over an open link, with the device delivering any 42-byte response,
    get_system_config transmits the frame dd03070000 + checksum e700, reads 42
    bytes, and returns exactly the nine u32 values decoded little-endian from
    the byte slices at offsets 4,8,...,36, in order; and when receive fails
    (empty-sequence sentinel, here an OSError during the read) it returns the
    empty list. -/
theorem get_system_config_decodes (rsp : List Nat) (k : Nat) (hk : 0 < k)
    (hr : rsp.length = 42) :
    get_system_config true (some k) (some rsp) =
      (.ok [intFromBytesLE (pySlice rsp 4 8), intFromBytesLE (pySlice rsp 8 12),
            intFromBytesLE (pySlice rsp 12 16), intFromBytesLE (pySlice rsp 16 20),
            intFromBytesLE (pySlice rsp 20 24), intFromBytesLE (pySlice rsp 24 28),
            intFromBytesLE (pySlice rsp 28 32), intFromBytesLE (pySlice rsp 32 36),
            intFromBytesLE (pySlice rsp 36 40)],
       [.lockAcquire, .portWrite [0xdd, 0x03, 0x07, 0x00, 0x00, 0xe7, 0x00], .lockRelease,
        .lockAcquire, .portRead 42, .lockRelease]) ∧
    get_system_config true (some k) none =
      (.ok [],
       [.lockAcquire, .portWrite [0xdd, 0x03, 0x07, 0x00, 0x00, 0xe7, 0x00], .lockRelease,
        .lockAcquire, .portRead 42, .lockRelease]) := by
  have hne : rsp ≠ [] := by intro e; rw [e] at hr; simp at hr
  constructor <;>
    simp [get_system_config, andThen, transmit, receive, encode, checksum, toBytes2LE,
          byteSum, get_system_config_result, hne, hk]

/-- C5 witness: the spec's end-to-end example.  The 42-byte response
    dd 03 2a 01 followed by the nine little-endian u32 values 1..9 and two
    padding bytes decodes to [1,2,3,4,5,6,7,8,9]. -/
theorem get_system_config_decodes_witness :
    0 < 7 ∧
    ([0xdd, 0x03, 0x2a, 0x01,
      1, 0, 0, 0, 2, 0, 0, 0, 3, 0, 0, 0, 4, 0, 0, 0, 5, 0, 0, 0,
      6, 0, 0, 0, 7, 0, 0, 0, 8, 0, 0, 0, 9, 0, 0, 0, 0, 0] : List Nat).length = 42 ∧
    (get_system_config true (some 7)
        (some [0xdd, 0x03, 0x2a, 0x01,
               1, 0, 0, 0, 2, 0, 0, 0, 3, 0, 0, 0, 4, 0, 0, 0, 5, 0, 0, 0,
               6, 0, 0, 0, 7, 0, 0, 0, 8, 0, 0, 0, 9, 0, 0, 0, 0, 0]) =
      (.ok [1, 2, 3, 4, 5, 6, 7, 8, 9],
       [.lockAcquire, .portWrite [0xdd, 0x03, 0x07, 0x00, 0x00, 0xe7, 0x00], .lockRelease,
        .lockAcquire, .portRead 42, .lockRelease]) ∧
     get_system_config true (some 7) none =
      (.ok [],
       [.lockAcquire, .portWrite [0xdd, 0x03, 0x07, 0x00, 0x00, 0xe7, 0x00], .lockRelease,
        .lockAcquire, .portRead 42, .lockRelease])) := by
  refine ⟨by decide, by decide, ?_⟩
  have h := get_system_config_decodes
    [0xdd, 0x03, 0x2a, 0x01,
     1, 0, 0, 0, 2, 0, 0, 0, 3, 0, 0, 0, 4, 0, 0, 0, 5, 0, 0, 0,
     6, 0, 0, 0, 7, 0, 0, 0, 8, 0, 0, 0, 9, 0, 0, 0, 0, 0] 7 (by decide) (by decide)
  simpa [pySlice, intFromBytesLE] using h

/-- C4 is refuted on the code: against a complete 46-byte response (here the
    bytes 0..45), request_data returns a list of ten ONE-ELEMENT TUPLES, not
    of ten floats: struct.unpack returns a tuple and the code never extracts
    its single element, contradicting the declared return type list[float].
    The tuples do sit at the claimed offsets 4,8,...,40, each holding the f32
    decoded from the corresponding four bytes. -/
theorem request_data_returns_singleton_tuples :
    request_data true (some 8) (some (List.range 46)) =
      (.ok [[⟨intFromBytesLE [4, 5, 6, 7]⟩], [⟨intFromBytesLE [8, 9, 10, 11]⟩],
            [⟨intFromBytesLE [12, 13, 14, 15]⟩], [⟨intFromBytesLE [16, 17, 18, 19]⟩],
            [⟨intFromBytesLE [20, 21, 22, 23]⟩], [⟨intFromBytesLE [24, 25, 26, 27]⟩],
            [⟨intFromBytesLE [28, 29, 30, 31]⟩], [⟨intFromBytesLE [32, 33, 34, 35]⟩],
            [⟨intFromBytesLE [36, 37, 38, 39]⟩], [⟨intFromBytesLE [40, 41, 42, 43]⟩]],
       [.lockAcquire, .portWrite [0xdd, 0x07, 0x06, 0x00, 0xea, 0x00], .lockRelease,
        .lockAcquire, .portRead 46, .lockRelease]) := by
  rfl

/-- C2 is refuted on the code: the state-machine half of the claim holds
    (an already-open link reports true immediately; a successful attempt
    transitions to open; ten failed attempts leave it closed after exactly ten
    serial-constructor calls with a one-second sleep after each failure), but
    the return-value half does not: open_port has no return statement, so on
    both the success path and the exhausted-retries path connect returns
    Python None — not true, not false — contradicting the declared
    -> bool return types and docstrings of open_port and connect. -/
theorem connect_returns_none :
    connect (fun _ => false) true (some nameCOM3) = (PyRet.bool true, true, []) ∧
    connect (fun _ => true) false (some nameCOM3) =
      (PyRet.none, true, [.serialOpenAttempt 1]) ∧
    connect (fun _ => false) false (some nameCOM3) =
      (PyRet.none, false,
       [.serialOpenAttempt 1, .sleepOneSecond, .serialOpenAttempt 2, .sleepOneSecond,
        .serialOpenAttempt 3, .sleepOneSecond, .serialOpenAttempt 4, .sleepOneSecond,
        .serialOpenAttempt 5, .sleepOneSecond, .serialOpenAttempt 6, .sleepOneSecond,
        .serialOpenAttempt 7, .sleepOneSecond, .serialOpenAttempt 8, .sleepOneSecond,
        .serialOpenAttempt 9, .sleepOneSecond, .serialOpenAttempt 10, .sleepOneSecond]) := by
  have hne : pyFalsy (some nameCOM3) = false := by decide
  refine ⟨by decide, ?_, ?_⟩ <;>
    simp [connect, open_port, open_port_loop, hne]

/-- C10: when the configured port name is falsy — None or the empty string —
    connect returns False at once with no serial-constructor attempt, no sleep
    and no state change; and when the link is already open, connect returns
    True immediately without reopening anything. -/
theorem connect_guards_portname (outcome : Nat → Bool) (p q : Option String)
    (h : pyFalsy p = true) :
    connect outcome false p = (PyRet.bool false, false, []) ∧
    connect outcome true q = (PyRet.bool true, true, []) := by
  constructor
  · simp [connect, h]
  · simp [connect]

/-- C10 witness: the guards at the concrete inputs None (an absent port name)
    and an open link with a real port name, with an always-succeeding serial
    constructor. -/
theorem connect_guards_portname_witness :
    pyFalsy Option.none = true ∧
    (connect (fun _ => true) false Option.none = (PyRet.bool false, false, []) ∧
     connect (fun _ => true) true (some nameCOM3) = (PyRet.bool true, true, [])) :=
  ⟨rfl, connect_guards_portname (fun _ => true) Option.none (some nameCOM3) rfl⟩

theorem foldl_add_shift (p : List Nat) (x : Nat) :
    p.foldl (fun acc b => acc + b) x = x + p.foldl (fun acc b => acc + b) 0 := by
  induction p generalizing x with
  | nil => simp
  | cons a p ih =>
    simp only [List.foldl]
    rw [ih (x + a), ih (0 + a)]
    omega

theorem byteSum_append (p q : List Nat) :
    byteSum (p ++ q) = byteSum p + byteSum q := by
  show (p ++ q).foldl (fun acc b => acc + b) 0 = _
  rw [List.foldl_append]
  exact foldl_add_shift q (byteSum p)

theorem byteSum_le_of_bytes (p : List Nat) (h : ∀ b ∈ p, b < 256) :
    byteSum p ≤ 255 * p.length := by
  induction p with
  | nil => simp [byteSum]
  | cons a p ih =>
    have ha : a < 256 := h a (List.mem_cons_self a p)
    have hp := ih (fun b hb => h b (List.mem_cons_of_mem a hb))
    have hc : byteSum (a :: p) = a + byteSum p := by
      show p.foldl (fun acc b => acc + b) (0 + a) = _
      rw [Nat.zero_add, foldl_add_shift]
      rfl
    rw [hc, List.length_cons]
    omega

theorem toBytes4LE_ok (n : Nat) (h : n < 4294967296) :
    ∃ b, toBytes4LE n = some b ∧ b.length = 4 ∧ (∀ x ∈ b, x < 256) ∧
      intFromBytesLE b = n := by
  refine ⟨[n % 256, n / 256 % 256, n / 65536 % 256, n / 16777216 % 256],
    by simp [toBytes4LE, h], rfl, ?_, ?_⟩
  · intro x hx
    simp only [List.mem_cons, List.not_mem_nil, or_false] at hx
    rcases hx with h | h | h | h <;> subst h <;> exact Nat.mod_lt _ (by norm_num)
  · simp only [intFromBytesLE, List.foldr]
    omega

theorem get_config_hex_string_ok (values : List Nat)
    (hv : ∀ v ∈ values, v < 4294967296) :
    ∃ cfg, get_config_hex_string values = some cfg ∧
      cfg.length = 4 * values.length ∧ ∀ x ∈ cfg, x < 256 := by
  induction values with
  | nil => exact ⟨[], rfl, rfl, by simp⟩
  | cons v vs ih =>
    obtain ⟨b, hb, hbl, hbB, _⟩ := toBytes4LE_ok v (hv v (List.mem_cons_self v vs))
    obtain ⟨cfg, hc, hcl, hcB⟩ := ih (fun u hu => hv u (List.mem_cons_of_mem v hu))
    refine ⟨b ++ cfg, by simp [get_config_hex_string, hb, hc], ?_, ?_⟩
    · simp only [List.length_append, hbl, hcl, List.length_cons]
      omega
    · intro x hx
      rcases List.mem_append.mp hx with h | h
      · exact hbB x h
      · exact hcB x h

theorem andThen_ok {α β : Type} (x : α) (tr : List Event)
    (f : α → Except PyExn β × List Event) :
    andThen (.ok x, tr) f = ((f x).1, tr ++ (f x).2) := rfl

theorem encode_of_lt (p : List Nat) (h : byteSum p < 65536) :
    encode p = some (p ++ [byteSum p % 256, byteSum p / 256 % 256]) := by
  simp [encode, checksum_of_lt p h]

theorem transmit_trace (k : Nat) (hk : 0 < k) (cmd : List Nat)
    (h : byteSum cmd < 65536) :
    transmit true (some k) cmd =
      (.ok (k : Int),
       [.lockAcquire,
        .portWrite (cmd ++ [byteSum cmd % 256, byteSum cmd / 256 % 256]),
        .lockRelease]) := by
  simp [transmit, encode, checksum_of_lt cmd h, hk]

theorem receive_trace (readResult : Option (List Nat)) (n : Nat) :
    (receive true readResult n).2 = [.lockAcquire, .portRead n, .lockRelease] := by
  cases readResult <;> rfl

/-- C8: every execution of set_system_config over an open link performs the
    complete set_epoch_time exchange — the frame of "dd040b0001" + the 4-byte
    little-endian epoch is written and the 10-byte acknowledgement consumed —
    strictly before the frame of "dd032b0001" + the 36 bytes of the nine
    u32-LE values is written and its 42-byte acknowledgement consumed. -/
theorem set_system_config_epoch_first (epoch : Nat) (values : List Nat)
    (k1 k2 : Nat) (r1 r2 : Option (List Nat))
    (he : epoch < 4294967296) (hv : ∀ v ∈ values, v < 4294967296)
    (hl : values.length = 9) (hk1 : 0 < k1) (hk2 : 0 < k2) :
    ∃ eb cfg eframe cframe,
      toBytes4LE epoch = some eb ∧
      get_config_hex_string values = some cfg ∧ cfg.length = 36 ∧
      encode ([0xdd, 0x04, 0x0b, 0x00, 0x01] ++ eb) = some eframe ∧
      encode ([0xdd, 0x03, 0x2b, 0x00, 0x01] ++ cfg) = some cframe ∧
      set_system_config true epoch values (some k1) (some k2) r1 r2 =
        (.ok (),
         [.lockAcquire, .portWrite eframe, .lockRelease,
          .lockAcquire, .portRead 10, .lockRelease,
          .lockAcquire, .portWrite cframe, .lockRelease,
          .lockAcquire, .portRead 42, .lockRelease]) := by
  obtain ⟨eb, heb, hebl, hebB, _⟩ := toBytes4LE_ok epoch he
  obtain ⟨cfg, hcfg, hcfgl, hcfgB⟩ := get_config_hex_string_ok values hv
  rw [hl] at hcfgl
  have h1 : byteSum ([0xdd, 0x04, 0x0b, 0x00, 0x01] ++ eb) < 65536 := by
    rw [byteSum_append]
    have := byteSum_le_of_bytes eb hebB
    have hhd : byteSum [0xdd, 0x04, 0x0b, 0x00, 0x01] = 237 := by decide
    omega
  have h2 : byteSum ([0xdd, 0x03, 0x2b, 0x00, 0x01] ++ cfg) < 65536 := by
    rw [byteSum_append]
    have := byteSum_le_of_bytes cfg hcfgB
    have hhd : byteSum [0xdd, 0x03, 0x2b, 0x00, 0x01] = 268 := by decide
    omega
  refine ⟨eb, cfg,
    ([0xdd, 0x04, 0x0b, 0x00, 0x01] ++ eb) ++
      [byteSum ([0xdd, 0x04, 0x0b, 0x00, 0x01] ++ eb) % 256,
       byteSum ([0xdd, 0x04, 0x0b, 0x00, 0x01] ++ eb) / 256 % 256],
    ([0xdd, 0x03, 0x2b, 0x00, 0x01] ++ cfg) ++
      [byteSum ([0xdd, 0x03, 0x2b, 0x00, 0x01] ++ cfg) % 256,
       byteSum ([0xdd, 0x03, 0x2b, 0x00, 0x01] ++ cfg) / 256 % 256],
    heb, hcfg, by omega, encode_of_lt _ h1, encode_of_lt _ h2, ?_⟩
  have t1 := transmit_trace k1 hk1 ([0xdd, 0x04, 0x0b, 0x00, 0x01] ++ eb) h1
  have t2 := transmit_trace k2 hk2 ([0xdd, 0x03, 0x2b, 0x00, 0x01] ++ cfg) h2
  simp only [set_system_config, set_epoch_time, set_epoch_time_cmd, heb, hcfg,
             Option.map_some']
  rw [t1, andThen_ok, andThen_ok, t2, andThen_ok]
  simp [receive_trace]

/-- C8 witness: a concrete run — epoch 1700000000, values 1..9, both writes
    succeeding and the device answering with zero-filled acknowledgements. -/
theorem set_system_config_epoch_first_witness :
    (1700000000 < 4294967296 ∧
      (∀ v ∈ [1, 2, 3, 4, 5, 6, 7, 8, 9], v < 4294967296) ∧
      ([1, 2, 3, 4, 5, 6, 7, 8, 9] : List Nat).length = 9 ∧ 0 < 11 ∧ 0 < 43) ∧
    (∃ eb cfg eframe cframe,
      toBytes4LE 1700000000 = some eb ∧
      get_config_hex_string [1, 2, 3, 4, 5, 6, 7, 8, 9] = some cfg ∧ cfg.length = 36 ∧
      encode ([0xdd, 0x04, 0x0b, 0x00, 0x01] ++ eb) = some eframe ∧
      encode ([0xdd, 0x03, 0x2b, 0x00, 0x01] ++ cfg) = some cframe ∧
      set_system_config true 1700000000 [1, 2, 3, 4, 5, 6, 7, 8, 9]
          (some 11) (some 43) (some (List.replicate 10 0)) (some (List.replicate 42 0)) =
        (.ok (),
         [.lockAcquire, .portWrite eframe, .lockRelease,
          .lockAcquire, .portRead 10, .lockRelease,
          .lockAcquire, .portWrite cframe, .lockRelease,
          .lockAcquire, .portRead 42, .lockRelease])) :=
  ⟨⟨by decide, by decide, by decide, by decide, by decide⟩,
   set_system_config_epoch_first 1700000000 [1, 2, 3, 4, 5, 6, 7, 8, 9] 11 43
     (some (List.replicate 10 0)) (some (List.replicate 42 0))
     (by decide) (by decide) (by decide) (by decide) (by decide)⟩

theorem filter_bool_partition (s : List (Bool × LockedCall)) :
    (s.filter (fun e => e.1 == true)).length
      + (s.filter (fun e => e.1 == false)).length = s.length := by
  induction s with
  | nil => rfl
  | cons a t ih =>
    obtain ⟨tid, c⟩ := a
    cases tid
    · have h1 : ((false, c) :: t).filter (fun e => e.1 == true)
          = t.filter (fun e => e.1 == true) := rfl
      have h2 : ((false, c) :: t).filter (fun e => e.1 == false)
          = (false, c) :: t.filter (fun e => e.1 == false) := rfl
      rw [h1, h2, List.length_cons, List.length_cons]
      omega
    · have h1 : ((true, c) :: t).filter (fun e => e.1 == true)
          = (true, c) :: t.filter (fun e => e.1 == true) := rfl
      have h2 : ((true, c) :: t).filter (fun e => e.1 == false)
          = t.filter (fun e => e.1 == false) := rfl
      rw [h1, h2, List.length_cons, List.length_cons]
      omega

/-- C9 (amended): the shared transaction lock serializes the individual
    transmit and receive calls — every wire order two concurrent transactions
    can produce is one of the six interleavings of the two callers' atomic
    calls, so each transmitted frame is contiguous on the wire and each
    caller's transmit precedes its own receive — but the lock is released
    between a caller's transmit and its receive, so one caller's full
    request/response exchange CAN be interleaved with the other's (the four
    mixed orders below; the unamended never-interleaved claim admits only the
    first two and is refuted by the counterexample). -/
theorem lock_serializes_calls (fa fb : List Nat) (na nb : Nat)
    (s : List (Bool × LockedCall))
    (h : ValidSchedule (transaction fa na) (transaction fb nb) s) :
    s = tagged true (transaction fa na) ++ tagged false (transaction fb nb) ∨
    s = tagged false (transaction fb nb) ++ tagged true (transaction fa na) ∨
    s = [(true, .txCall fa), (false, .txCall fb), (true, .rxCall na), (false, .rxCall nb)] ∨
    s = [(true, .txCall fa), (false, .txCall fb), (false, .rxCall nb), (true, .rxCall na)] ∨
    s = [(false, .txCall fb), (true, .txCall fa), (true, .rxCall na), (false, .rxCall nb)] ∨
    s = [(false, .txCall fb), (true, .txCall fa), (false, .rxCall nb), (true, .rxCall na)] := by
  obtain ⟨hA, hB⟩ := h
  have lenA : (s.filter (fun e => e.1 == true)).length = 2 := by
    have h' := congrArg List.length hA
    unfold callsOf at h'
    rw [List.length_map] at h'
    exact h'
  have lenB : (s.filter (fun e => e.1 == false)).length = 2 := by
    have h' := congrArg List.length hB
    unfold callsOf at h'
    rw [List.length_map] at h'
    exact h'
  have hs4 : s.length = 4 := by
    have := filter_bool_partition s
    omega
  obtain ⟨e1, e2, e3, e4, rfl⟩ : ∃ a b c d, s = [a, b, c, d] := by
    rcases s with _ | ⟨a, _ | ⟨b, _ | ⟨c, _ | ⟨d, _ | ⟨e, t⟩⟩⟩⟩⟩ <;>
      first
        | exact ⟨_, _, _, _, rfl⟩
        | (exfalso; simp only [List.length_cons, List.length_nil] at hs4; omega)
  obtain ⟨t1, c1⟩ := e1
  obtain ⟨t2, c2⟩ := e2
  obtain ⟨t3, c3⟩ := e3
  obtain ⟨t4, c4⟩ := e4
  cases t1 <;> cases t2 <;> cases t3 <;> cases t4 <;>
    simp_all [callsOf, transaction, tagged, List.filter_cons]

/-- C9 witness for the amended theorem: the fully serialized schedule — A's
    whole exchange, then B's — is valid and is listed among the six orders. -/
theorem lock_serializes_calls_witness :
    ValidSchedule (transaction [0xaa] 7) (transaction [0xbb] 7)
      [(true, .txCall [0xaa]), (true, .rxCall 7),
       (false, .txCall [0xbb]), (false, .rxCall 7)] ∧
    ([(true, LockedCall.txCall [0xaa]), (true, .rxCall 7),
      (false, .txCall [0xbb]), (false, .rxCall 7)]
        = tagged true (transaction [0xaa] 7) ++ tagged false (transaction [0xbb] 7) ∨
     [(true, LockedCall.txCall [0xaa]), (true, .rxCall 7),
      (false, .txCall [0xbb]), (false, .rxCall 7)]
        = tagged false (transaction [0xbb] 7) ++ tagged true (transaction [0xaa] 7) ∨
     [(true, LockedCall.txCall [0xaa]), (true, .rxCall 7),
      (false, .txCall [0xbb]), (false, .rxCall 7)]
        = [(true, .txCall [0xaa]), (false, .txCall [0xbb]),
           (true, .rxCall 7), (false, .rxCall 7)] ∨
     [(true, LockedCall.txCall [0xaa]), (true, .rxCall 7),
      (false, .txCall [0xbb]), (false, .rxCall 7)]
        = [(true, .txCall [0xaa]), (false, .txCall [0xbb]),
           (false, .rxCall 7), (true, .rxCall 7)] ∨
     [(true, LockedCall.txCall [0xaa]), (true, .rxCall 7),
      (false, .txCall [0xbb]), (false, .rxCall 7)]
        = [(false, .txCall [0xbb]), (true, .txCall [0xaa]),
           (true, .rxCall 7), (false, .rxCall 7)] ∨
     [(true, LockedCall.txCall [0xaa]), (true, .rxCall 7),
      (false, .txCall [0xbb]), (false, .rxCall 7)]
        = [(false, .txCall [0xbb]), (true, .txCall [0xaa]),
           (false, .rxCall 7), (true, .rxCall 7)]) :=
  ⟨⟨by decide, by decide⟩,
   lock_serializes_calls [0xaa] [0xbb] 7 7
     [(true, .txCall [0xaa]), (true, .rxCall 7),
      (false, .txCall [0xbb]), (false, .rxCall 7)] ⟨by decide, by decide⟩⟩

/-- C9 counterexample: the schedule A-transmit, B-transmit, A-receive,
    B-receive is a valid wire order of the two callers' transactions under the
    per-call lock, and it is neither of the two transaction-atomic orders:
    caller B's frame write lands between caller A's frame write and A's
    response read, so full request/response transactions are NOT mutually
    exclusive — refuting the claim as stated. -/
theorem transactions_interleave_counterexample :
    ValidSchedule (transaction [0xaa] 7) (transaction [0xbb] 7)
      [(true, .txCall [0xaa]), (false, .txCall [0xbb]),
       (true, .rxCall 7), (false, .rxCall 7)] ∧
    [(true, LockedCall.txCall [0xaa]), (false, .txCall [0xbb]),
     (true, .rxCall 7), (false, .rxCall 7)]
        ≠ tagged true (transaction [0xaa] 7) ++ tagged false (transaction [0xbb] 7) ∧
    [(true, LockedCall.txCall [0xaa]), (false, .txCall [0xbb]),
     (true, .rxCall 7), (false, .rxCall 7)]
        ≠ tagged false (transaction [0xbb] 7) ++ tagged true (transaction [0xaa] 7) := by
  refine ⟨⟨by decide, by decide⟩, by decide, by decide⟩

end VCP
